import Mathlib

/-!
Shallow embedding of the Wazuh API bootstrap core:
`src/api/api/configuration.py` (configuration resolver + TLS bootstrap)
and `src/api/scripts/wazuh-apid.py` (daemon controller CLI).

Python dictionaries are modelled as association lists preserving insertion
order (Python 3.7+ dicts are ordered); YAML scalars as the `PyVal` type;
fallible Python code as `Except PyErr`; filesystem existence as an oracle
`String → Bool`; side effects (prints, signals, file writes) as explicit
effect traces.
-/

namespace Wazuh

/-- A Python/YAML value: string, bool, int, float or (nested) dict.
Floats are modelled as rationals (the only float in play is `0.750`). -/
inductive PyVal where
  | str (s : String)
  | bool (b : Bool)
  | int (n : Int)
  | float (q : Rat)
  | dict (entries : List (String × PyVal))

instance : Inhabited PyVal := ⟨PyVal.dict []⟩

mutual

/-- Decidable equality on `PyVal` (hand-rolled: the nested inductive is
out of reach of automatic deriving). -/
def PyVal.decEq : (a b : PyVal) → Decidable (a = b)
  | .str a, .str b =>
      if h : a = b then isTrue (by rw [h]) else isFalse (by intro c; cases c; exact h rfl)
  | .str _, .bool _ => isFalse (by intro h; cases h)
  | .str _, .int _ => isFalse (by intro h; cases h)
  | .str _, .float _ => isFalse (by intro h; cases h)
  | .str _, .dict _ => isFalse (by intro h; cases h)
  | .bool _, .str _ => isFalse (by intro h; cases h)
  | .bool a, .bool b =>
      if h : a = b then isTrue (by rw [h]) else isFalse (by intro c; cases c; exact h rfl)
  | .bool _, .int _ => isFalse (by intro h; cases h)
  | .bool _, .float _ => isFalse (by intro h; cases h)
  | .bool _, .dict _ => isFalse (by intro h; cases h)
  | .int _, .str _ => isFalse (by intro h; cases h)
  | .int _, .bool _ => isFalse (by intro h; cases h)
  | .int a, .int b =>
      if h : a = b then isTrue (by rw [h]) else isFalse (by intro c; cases c; exact h rfl)
  | .int _, .float _ => isFalse (by intro h; cases h)
  | .int _, .dict _ => isFalse (by intro h; cases h)
  | .float _, .str _ => isFalse (by intro h; cases h)
  | .float _, .bool _ => isFalse (by intro h; cases h)
  | .float _, .int _ => isFalse (by intro h; cases h)
  | .float a, .float b =>
      if h : a = b then isTrue (by rw [h]) else isFalse (by intro c; cases c; exact h rfl)
  | .float _, .dict _ => isFalse (by intro h; cases h)
  | .dict _, .str _ => isFalse (by intro h; cases h)
  | .dict _, .bool _ => isFalse (by intro h; cases h)
  | .dict _, .int _ => isFalse (by intro h; cases h)
  | .dict _, .float _ => isFalse (by intro h; cases h)
  | .dict a, .dict b =>
      match PyVal.decEqEntries a b with
      | isTrue h => isTrue (by rw [h])
      | isFalse h => isFalse (by intro c; cases c; exact h rfl)

/-- Decidable equality on dict entry lists. -/
def PyVal.decEqEntries : (a b : List (String × PyVal)) → Decidable (a = b)
  | [], [] => isTrue rfl
  | [], _ :: _ => isFalse (by intro h; cases h)
  | _ :: _, [] => isFalse (by intro h; cases h)
  | (k1, v1) :: r1, (k2, v2) :: r2 =>
      if hk : k1 = k2 then
        match PyVal.decEq v1 v2 with
        | isTrue hv =>
            match PyVal.decEqEntries r1 r2 with
            | isTrue hr => isTrue (by rw [hk, hv, hr])
            | isFalse hr => isFalse (by intro c; cases c; exact hr rfl)
        | isFalse hv => isFalse (by intro c; cases c; exact hv rfl)
      else isFalse (by intro c; cases c; exact hk rfl)

end

instance : DecidableEq PyVal := PyVal.decEq

/-- Errors a resolution run can raise.  `api code details` models
`APIException(code, details=...)` from the (absent) `api.api_exception`
module; `yaml` models an uncaught `yaml.YAMLError` from `yaml.safe_load`;
`typeError`, `keyError` and `attrError` model the corresponding built-in
Python exceptions escaping uncaught. -/
inductive PyErr where
  | api (code : Nat) (details : String)
  | yaml (msg : String)
  | typeError
  | keyError (k : String)
  | attrError
deriving DecidableEq

instance {ε α : Type} [DecidableEq ε] [DecidableEq α] : DecidableEq (Except ε α)
  | .ok a, .ok b =>
      if h : a = b then isTrue (by rw [h]) else isFalse (by intro c; cases c; exact h rfl)
  | .ok _, .error _ => isFalse (by intro h; cases h)
  | .error _, .ok _ => isFalse (by intro h; cases h)
  | .error a, .error b =>
      if h : a = b then isTrue (by rw [h]) else isFalse (by intro c; cases c; exact h rfl)

/-- Top-level key list of a dict, in insertion order (`d.keys()`). -/
def keys (d : List (String × PyVal)) : List String := d.map Prod.fst

/-- Python `k in d.keys()`. -/
def containsKey (d : List (String × PyVal)) (k : String) : Bool :=
  decide (k ∈ keys d)

/-- Python `d[k]` as an `Option` (first binding wins; Python dicts have
no duplicate keys). -/
def lookupKey : List (String × PyVal) → String → Option PyVal
  | [], _ => none
  | (k', v) :: rest, k => if k' = k then some v else lookupKey rest k

/-- Python `d[k] = v`: replaces the value at an existing key in place,
else appends the new binding at the end. -/
def setKey : List (String × PyVal) → String → PyVal → List (String × PyVal)
  | [], k, v => [(k, v)]
  | (k', v') :: rest, k, v =>
      if k' = k then (k', v) :: rest else (k', v') :: setKey rest k v

/-- Python `s.lower()`: character-wise lowercasing. -/
def py_str_lower (s : String) : String := String.mk (s.data.map Char.toLower)

mutual

/-- The per-value action of `dict_to_lowercase` (configuration.py:20):
a `str` value is lowercased, a `dict` value is recursed into, any other
value is left untouched. -/
def val_to_lowercase : PyVal → PyVal
  | PyVal.str s => PyVal.str (py_str_lower s)
  | PyVal.dict d => PyVal.dict (dict_to_lowercase d)
  | v => v

/-- `dict_to_lowercase` (configuration.py:20): lowercases every `str`
value, recursing into nested dicts; keys and non-string scalars are left
untouched. -/
def dict_to_lowercase : List (String × PyVal) → List (String × PyVal)
  | [] => []
  | (k, v) :: rest => (k, val_to_lowercase v) :: dict_to_lowercase rest

end

/-- Modelled from the spec: `wazuh.common.ossec_path`, the installation
base directory (the `wazuh.common` module is not under `src/`).  The
concrete value is the standard install root; no claim's verdict depends
on the particular string. -/
def ossec_path : String := "/var/ossec"

/-- Python `b.startswith('/')`. -/
def startswith_slash (s : String) : Bool := s.data.head? = some '/'

/-- Python `a.endswith('/')`. -/
def endswith_slash (s : String) : Bool := s.data.getLast? = some '/'

/-- `os.path.join(a, b)` for POSIX paths (the Python standard library
collaborator): an absolute second component discards the first; otherwise
the parts are joined with a single separator. -/
def os_path_join (a b : String) : String :=
  if startswith_slash b then b
  else if a = "" || endswith_slash a then a ++ b
  else a ++ "/" ++ b

/-- The keys of `config` absent from `default`
(`config.keys() - default.keys()`, rendered in `config`'s insertion
order; Python's set-difference iteration order is unspecified). -/
def offending_keys (default config : List (String × PyVal)) : List String :=
  (keys config).filter (fun k => !(containsKey default k))

/-- Python `{**a, **b}`: `a`'s bindings in order with `b` overriding
key by key, followed by `b`'s bindings for keys not in `a`. -/
def pyDictUnion (a b : List (String × PyVal)) : List (String × PyVal) :=
  a.map (fun kv => (kv.1, (lookupKey b kv.1).getD kv.2))
    ++ b.filter (fun kv => !(containsKey a kv.1))

/-- The nested-merge loop inside `fill_dict` (configuration.py:56):
for every binding of `config` holding a dict, replace it with
`{**default[k], **config[k]}`.  When `default[k]` is not a dict Python
raises `TypeError`; a missing `default[k]` would raise `KeyError`. -/
def merge_nested (default : List (String × PyVal)) :
    List (String × PyVal) → Except PyErr (List (String × PyVal))
  | [] => .ok []
  | (k, PyVal.dict sub) :: rest =>
      match lookupKey default k with
      | some (PyVal.dict dsub) =>
          (merge_nested default rest).map
            (fun r => (k, PyVal.dict (pyDictUnion dsub sub)) :: r)
      | some _ => .error PyErr.typeError
      | none => .error (PyErr.keyError k)
  | kv :: rest => (merge_nested default rest).map (fun r => kv :: r)

/-- `fill_dict` (configuration.py:44): rejects unknown top-level keys
with `APIException(2000, ', '.join(config.keys() - default.keys()))`,
then merges nested dicts one level deep and returns
`{**default, **config}`. -/
def fill_dict (default config : List (String × PyVal)) :
    Except PyErr (List (String × PyVal)) :=
  if offending_keys default config = [] then
    (merge_nested default config).map (fun c2 => pyDictUnion default c2)
  else
    .error (PyErr.api 2000 (", ".intercalate (offending_keys default config)))

/-- The built-in default configuration document
(configuration.py:118-144). -/
def default_configuration : List (String × PyVal) := [
  ("host", PyVal.str "0.0.0.0"),
  ("port", PyVal.int 55000),
  ("basic_auth", PyVal.bool true),
  ("behind_proxy_server", PyVal.bool false),
  ("rbac", PyVal.dict [("mode", PyVal.str "black")]),
  ("https", PyVal.dict [
    ("enabled", PyVal.bool true),
    ("key", PyVal.str "api/configuration/ssl/server.key"),
    ("cert", PyVal.str "api/configuration/ssl/server.crt"),
    ("use_ca", PyVal.bool false),
    ("ca", PyVal.str "api/configuration/ssl/ca.crt")]),
  ("logs", PyVal.dict [
    ("level", PyVal.str "info"),
    ("path", PyVal.str "logs/api.log")]),
  ("cors", PyVal.bool true),
  ("cache", PyVal.dict [
    ("enabled", PyVal.bool false),
    ("debug", PyVal.bool false),
    ("time", PyVal.float (mkRat 3 4))]),
  ("use_only_authd", PyVal.bool false),
  ("drop_privileges", PyVal.bool true),
  ("experimental_features", PyVal.bool false)]

/-- Modelled from the spec: `api.constants.CONFIG_PATH`, the API
configuration directory under the installation base (the `api.constants`
module is not under `src/`).  The spec's TLS-bootstrap section places the
generated credentials under the install's configuration tree. -/
def CONFIG_PATH : String := os_path_join ossec_path "api/configuration"

/-- `os.path.join(CONFIG_PATH, 'ssl', 'server.key')`
(configuration.py:68): the fixed location `generate_private_key` writes
the private key to, independent of the resolved configuration. -/
def server_key_path : String :=
  os_path_join (os_path_join CONFIG_PATH "ssl") "server.key"

/-- `os.path.join(CONFIG_PATH, 'ssl', 'server.crt')`
(configuration.py:107): the fixed location
`generate_self_signed_certificate` writes the certificate to. -/
def server_crt_path : String :=
  os_path_join (os_path_join CONFIG_PATH "ssl") "server.crt"

/-- The file writes `generate_self_signed_certificate`
(configuration.py:77-109) performs, in order: `generate_private_key`
persists the key, then the certificate is written.  The cryptographic
payload (2048-bit RSA, self-signed X.509) is opaque to the claims here;
only the destination paths are modelled. -/
def generate_self_signed_certificate_writes : List String :=
  [server_key_path, server_crt_path]

/-- What reading the configuration file yields, one constructor per
observable outcome of configuration.py:147-152: the file is absent; the
`open`/read raises `IOError` with the given `strerror`; `yaml.safe_load`
raises a parse error (not an `IOError`); or parsing yields `None` (empty
file) or a YAML value. -/
inductive FileRead where
  | absent
  | ioFailed (strerror : String)
  | parseFailure (msg : String)
  | parsed (v : Option PyVal)
deriving DecidableEq

/-- configuration.py:147-154: absent file yields `None`; an `IOError`
during open/read becomes `APIException(2004, e.strerror)`; a YAML parse
error escapes uncaught. -/
def parse_config_file : FileRead → Except PyErr (Option PyVal)
  | .absent => .ok none
  | .ioFailed s => .error (PyErr.api 2004 s)
  | .parseFailure m => .error (PyErr.yaml m)
  | .parsed v => .ok v

/-- configuration.py:156-161: a `None` configuration is replaced by the
defaults verbatim; otherwise the document is value-lowercased and merged
by `fill_dict`.  A parsed non-mapping reaches `dict_to_lowercase`, whose
`.items()` call raises `AttributeError`. -/
def merged_config (file : FileRead) : Except PyErr (List (String × PyVal)) :=
  match parse_config_file file with
  | .error e => .error e
  | .ok none => .ok default_configuration
  | .ok (some (PyVal.dict c)) => fill_dict default_configuration (dict_to_lowercase c)
  | .ok (some _) => .error PyErr.attrError

/-- One step of `append_ossec_path` (configuration.py:33-41):
`dictionary[sec][sub] = os.path.join(common.ossec_path, dictionary[sec][sub])`.
Missing keys raise `KeyError`; a non-dict section or non-string leaf
raises `TypeError`. -/
def append_one (d : List (String × PyVal)) (sec sub : String) :
    Except PyErr (List (String × PyVal)) :=
  match lookupKey d sec with
  | none => .error (PyErr.keyError sec)
  | some (PyVal.dict s) =>
      match lookupKey s sub with
      | none => .error (PyErr.keyError sub)
      | some (PyVal.str v) =>
          .ok (setKey d sec (PyVal.dict (setKey s sub (PyVal.str (os_path_join ossec_path v)))))
      | some _ => .error PyErr.typeError
  | some _ => .error PyErr.typeError

/-- `append_ossec_path` (configuration.py:33): rewrites each listed
`(section, subsection)` path field in order. -/
def append_ossec_path (d : List (String × PyVal)) :
    List (String × String) → Except PyErr (List (String × PyVal))
  | [] => .ok d
  | (sec, sub) :: rest =>
      match append_one d sec sub with
      | .error e => .error e
      | .ok d2 => append_ossec_path d2 rest

/-- The path fields rewritten by `read_api_config`
(configuration.py:164). -/
def path_fields : List (String × String) :=
  [("logs", "path"), ("https", "key"), ("https", "cert"), ("https", "ca")]

/-- The resolved configuration before the TLS bootstrap: parse, lowercase
values, merge with defaults, rewrite path fields
(configuration.py:147-164). -/
def resolve_config (file : FileRead) : Except PyErr (List (String × PyVal)) :=
  match merged_config file with
  | .error e => .error e
  | .ok m => append_ossec_path m path_fields

/-- Python truthiness of a value (`if configuration['https']['enabled']`). -/
def pyTruthy : PyVal → Bool
  | .str s => s ≠ ""
  | .bool b => b
  | .int n => n ≠ 0
  | .float q => q ≠ 0
  | .dict d => d ≠ []

/-- The TLS-bootstrap trigger (configuration.py:167-168):
`configuration['https']['enabled'] and (not os.path.exists(key) or not
os.path.exists(cert))`, with Python's short-circuit evaluation and its
failure modes; `fs` is the `os.path.exists` oracle. -/
def ssc_condition (conf : List (String × PyVal)) (fs : String → Bool) :
    Except PyErr Bool :=
  match lookupKey conf "https" with
  | none => .error (PyErr.keyError "https")
  | some (PyVal.dict h) =>
      match lookupKey h "enabled" with
      | none => .error (PyErr.keyError "enabled")
      | some en =>
          if pyTruthy en then
            match lookupKey h "key" with
            | none => .error (PyErr.keyError "key")
            | some (PyVal.str kp) =>
                if !(fs kp) then .ok true
                else
                  match lookupKey h "cert" with
                  | none => .error (PyErr.keyError "cert")
                  | some (PyVal.str cp) => .ok (!(fs cp))
                  | some _ => .error PyErr.typeError
            | some _ => .error PyErr.typeError
          else .ok false
  | some _ => .error PyErr.typeError

/-- Result of `read_api_config`: the resolved document together with the
paths of the files the run wrote (the TLS bootstrap's side effects). -/
structure ReadResult where
  config : List (String × PyVal)
  writes : List String
deriving DecidableEq

/-- `read_api_config` (configuration.py:112-171): resolve the
configuration, then, when HTTPS is enabled and the configured key or
certificate file is missing, run `generate_self_signed_certificate`
(which writes to the fixed `server_key_path`/`server_crt_path`). -/
def read_api_config (file : FileRead) (fs : String → Bool) :
    Except PyErr ReadResult :=
  match resolve_config file with
  | .error e => .error e
  | .ok conf =>
      match ssc_condition conf fs with
      | .error e => .error e
      | .ok gen =>
          .ok ⟨conf, if gen then generate_self_signed_certificate_writes else []⟩

/-- The defaults after path rewriting: what resolution yields when no
override file exists.  Defined through the resolver itself. -/
def resolved_default_doc : List (String × PyVal) :=
  (resolve_config FileRead.absent).toOption.getD []

/-- Python `d[sec][sub]` on a two-level document, with Python's failure
modes (`KeyError` for a missing key, `TypeError` for indexing a
non-dict). -/
def get_section_value (d : List (String × PyVal)) (sec sub : String) :
    Except PyErr PyVal :=
  match lookupKey d sec with
  | none => .error (PyErr.keyError sec)
  | some (PyVal.dict s) =>
      match lookupKey s sub with
      | none => .error (PyErr.keyError sub)
      | some v => .ok v
  | some _ => .error PyErr.typeError

/-! ## Daemon controller (`src/api/scripts/wazuh-apid.py`) -/

/-- The process metadata `get_wazuh_apid_pids` scans
(`psutil.process_iter(attrs=['pid', 'name'])` plus `cmdline()`). -/
structure ProcInfo where
  pid : Nat
  name : String
  cmdline : List String
deriving DecidableEq

/-- Python `pat in s` substring membership. -/
def str_contains (s pat : String) : Bool := decide (pat.data <:+: s.data)

/-- `get_wazuh_apid_pids` (wazuh-apid.py:193-209): pids of processes
other than the caller whose name is `python3` and whose joined command
line contains `wazuh-apid.py`; `None` when no match. -/
def get_wazuh_apid_pids (procs : List ProcInfo) (own_pid : Nat) :
    Option (List Nat) :=
  let result :=
    (procs.filter (fun p =>
      (p.pid != own_pid) && (p.name == "python3")
        && str_contains (" ".intercalate p.cmdline) "wazuh-apid.py")).map ProcInfo.pid
  if result.length > 0 then some result else none

/-- An observable side effect of a CLI action.  `daemonize` models
`pyDaemonModule.pyDaemon()`, `setgid`/`setuid` the privilege drop,
`write_file` a file creation/overwrite, `setup_logging` the
`set_logging` call (the `api.alogging` collaborator), `chown`/`chmod`
the log-permission fixup, `terminate`/`wait_procs`/`kill` the psutil
process-control calls, `open_log` the `open(API_LOG_FILE_PATH)` attempt,
`framework_setup`/`run_server` the web-framework wiring and launch. -/
inductive Effect where
  | print (s : String)
  | daemonize
  | setgid
  | setuid
  | write_file (path : String)
  | setup_logging (level : PyVal) (foreground : Bool)
  | chown (path : String)
  | chmod (path : String)
  | terminate (pid : Nat)
  | wait_procs (timeout : Nat)
  | kill (pid : Nat)
  | open_log (path : String)
  | framework_setup
  | run_server
deriving DecidableEq

/-- How a CLI action run ends: `sys.exit(code)`, an uncaught Python
exception, or handing the process over to the web framework. -/
inductive Outcome where
  | exited (code : Nat)
  | raised (e : PyErr)
  | running
deriving DecidableEq

/-- What `ssl_context.load_cert_chain`/`load_verify_locations` does at
framework-TLS construction (wazuh-apid.py:116-129): succeeds, raises
`ssl.SSLError`, or raises `IOError`.  An input of the model: the
credential files' contents are outside the embedding. -/
inductive SslResult where
  | ok
  | sslFailed
  | ioFailed
deriving DecidableEq

/-- Modelled from the spec: `api.constants.API_LOG_FILE_PATH`
(module not under `src/`), the service's own log file at the configured
logs location under the installation base. -/
def API_LOG_FILE_PATH : String := ossec_path ++ "/logs/api.log"

/-- Python `repr` of a pid list, as an f-string renders it. -/
def py_list_repr (pids : List Nat) : String :=
  "[" ++ ", ".intercalate (pids.map toString) ++ "]"

/-- The message `start` prints on a singleton conflict
(wazuh-apid.py:63). -/
def start_conflict_msg (pids : List Nat) : String :=
  "Cannot start API while other processes are running. Kill these before "
    ++ py_list_repr pids

/-- The `APIException(2003, ...)` detail for an `IOError` while loading
the TLS material (wazuh-apid.py:126-129). -/
def ssl_io_failure_msg : String :=
  "Please, ensure if path to certificates is correct in the configuration file "
    ++ "(WAZUH_PATH/api/configuration/api.yaml)"

/-- `start` (wazuh-apid.py:44-138) as an effect trace plus outcome:
singleton check (exit 2 on conflict, before any other step), daemonize
unless foreground, privilege drop unless root, configuration resolution
(whose TLS bootstrap may write the credential files), log setup and
permission fixup, framework wiring, TLS-context construction
(`APIException(2003, ...)` on failure) and the final `app.run`. -/
def start (foreground root : Bool) (file : FileRead) (fs : String → Bool)
    (procs : List ProcInfo) (own_pid : Nat) (ssl : SslResult) :
    List Effect × Outcome :=
  match get_wazuh_apid_pids procs own_pid with
  | some pids => ([Effect.print (start_conflict_msg pids)], Outcome.exited 2)
  | none =>
    let e1 := (if foreground then [] else [Effect.daemonize])
      ++ (if root then [] else [Effect.setgid, Effect.setuid])
    match read_api_config file fs with
    | .error e => (e1, Outcome.raised e)
    | .ok r =>
      let e2 := e1 ++ r.writes.map Effect.write_file
      match get_section_value r.config "logs" "level" with
      | .error e => (e2, Outcome.raised e)
      | .ok lvl =>
        let e3 := e2 ++ [Effect.setup_logging lvl foreground]
        let log_path := ossec_path ++ "/logs/api.log"
        let e4 := e3 ++ (if fs log_path then [Effect.chown log_path, Effect.chmod log_path] else [])
        let e5 := e4 ++ [Effect.framework_setup]
        match get_section_value r.config "https" "enabled" with
        | .error e => (e5, Outcome.raised e)
        | .ok en =>
          if pyTruthy en then
            match ssl with
            | SslResult.sslFailed =>
                (e5, Outcome.raised (PyErr.api 2003 "Private key does not match with the certificate"))
            | SslResult.ioFailed =>
                (e5, Outcome.raised (PyErr.api 2003 ssl_io_failure_msg))
            | SslResult.ok => (e5 ++ [Effect.run_server], Outcome.running)
          else (e5 ++ [Effect.run_server], Outcome.running)

/-- The message `stop`'s `on_terminate` callback prints for each process
that terminates within the grace period (wazuh-apid.py:147-148). -/
def stop_terminated_msg (pid : Nat) : String :=
  "Wazuh API process " ++ toString pid ++ " terminated."

/-- `stop` (wazuh-apid.py:141-157): no-op when the process set is empty;
otherwise terminate every matched pid, wait up to 5 seconds
(`psutil.wait_procs(procs, timeout=5, callback=on_terminate)`, printing
for each clean exit), then kill exactly the still-alive ones.
`survives` tells which pids outlive the grace period. -/
def stop (procs : List ProcInfo) (own_pid : Nat) (survives : Nat → Bool) :
    List Effect :=
  match get_wazuh_apid_pids procs own_pid with
  | none => []
  | some pids =>
      pids.map Effect.terminate
        ++ [Effect.wait_procs 5]
        ++ (pids.filter (fun p => !(survives p))).map (fun p => Effect.print (stop_terminated_msg p))
        ++ (pids.filter survives).map Effect.kill

/-- How a `status` run ends: normally, or with the uncaught `IOError`
from opening a missing log file. -/
inductive StatusOutcome where
  | completed
  | ioFailed
deriving DecidableEq

/-- The last `n` elements of a list (`collections.deque(log, n)`). -/
def last_n (n : Nat) (l : List String) : List String := l.drop (l.length - n)

/-- `status` (wazuh-apid.py:179-190): report running when the process
set is non-empty; otherwise print the stopped message and then
unconditionally open the log file — printing its last 20 lines and its
path when it exists, raising an uncaught `IOError` when it does not. -/
def status (procs : List ProcInfo) (own_pid : Nat) (log_exists : Bool)
    (log_lines : List String) : List Effect × StatusOutcome :=
  match get_wazuh_apid_pids procs own_pid with
  | some _ => ([Effect.print "Wazuh API is running"], StatusOutcome.completed)
  | none =>
      if log_exists then
        ([Effect.print "Wazuh API is stopped.", Effect.open_log API_LOG_FILE_PATH]
          ++ (last_n 20 log_lines).map Effect.print
          ++ [Effect.print ("Full log in " ++ API_LOG_FILE_PATH)],
         StatusOutcome.completed)
      else
        ([Effect.print "Wazuh API is stopped.", Effect.open_log API_LOG_FILE_PATH],
         StatusOutcome.ioFailed)

/-- Modelled from the spec: the printed form of the caught exception in
`test_config`'s f-string (the `APIException.__str__` of the absent
`api.api_exception` module); a deterministic human-readable rendering. -/
def py_err_str : PyErr → String
  | .api code d => "Error " ++ toString code ++ " - " ++ d
  | .yaml m => m
  | .typeError => "TypeError"
  | .keyError k => "KeyError: " ++ k
  | .attrError => "AttributeError"

/-- `test_config` (wazuh-apid.py:212-228): attempt `read_api_config`
(side effects included — the TLS bootstrap runs inside it); on any
exception print `Configuration not valid: ...` and exit 1, else
exit 0. -/
def test_config (file : FileRead) (fs : String → Bool) : List Effect × Nat :=
  match read_api_config file fs with
  | .error e => ([Effect.print ("Configuration not valid: " ++ py_err_str e)], 1)
  | .ok r => (r.writes.map Effect.write_file, 0)

/-- The parsed CLI arguments (wazuh-apid.py:241-252): positional
`action` (defaulting to `start`), plus the `-f`, `-V`, `-t`, `-r`, `-c`
flags as argparse stores them. -/
structure Args where
  action : String
  foreground : Bool
  version : Bool
  test_config : Bool
  root : Bool
  config_file : String
deriving DecidableEq

/-- The argparse default for the positional `action`
(wazuh-apid.py:245). -/
def default_action : String := "start"

/-- Which handler the `__main__` block invokes. -/
inductive DispatchTarget where
  | run_start
  | run_stop
  | run_restart
  | run_status
  | run_test_config
  | run_version
  | invalid
deriving DecidableEq

/-- The `__main__` dispatch (wazuh-apid.py:254-268): the branch taken is
a function of `args.action` alone; the parsed `-V` and `-t` flags are
never consulted. -/
def main_dispatch (a : Args) : DispatchTarget :=
  if a.action = "start" then DispatchTarget.run_start
  else if a.action = "stop" then DispatchTarget.run_stop
  else if a.action = "restart" then DispatchTarget.run_restart
  else if a.action = "status" then DispatchTarget.run_status
  else if a.action = "test_config" then DispatchTarget.run_test_config
  else if a.action = "version" then DispatchTarget.run_version
  else DispatchTarget.invalid

/-! ## Claim-statement vocabulary and concrete test inputs -/

/-- The spec's notion of an absolute path: one beginning with the
separator. -/
def isAbsolutePath (p : String) : Prop := ['/'] <+: p.data

/-- The spec's notion of a path rooted at the installation base:
`ossec_path ++ "/"` is a prefix of it. -/
def rootedAtOssec (p : String) : Prop := (ossec_path ++ "/").data <+: p.data

/-- Whether a resolution outcome is the `ConfigError(IOFailure)` of the
spec, i.e. `APIException(2004, ...)`. -/
def is_io_failure : Except PyErr ReadResult → Bool
  | .error (.api 2004 _) => true
  | _ => false

/-- The https section of `resolved_default_doc`, written out. -/
def resolved_https_default : List (String × PyVal) :=
  [("enabled", PyVal.bool true),
   ("key", PyVal.str "/var/ossec/api/configuration/ssl/server.key"),
   ("cert", PyVal.str "/var/ossec/api/configuration/ssl/server.crt"),
   ("use_ca", PyVal.bool false),
   ("ca", PyVal.str "/var/ossec/api/configuration/ssl/ca.crt")]

/-- An override file pointing `https.key` at a non-default relative
location. -/
def custom_key_override : FileRead :=
  FileRead.parsed (some (PyVal.dict [("https", PyVal.dict [("key", PyVal.str "custom/server.key")])]))

/-- An override file pointing `https.key` at an absolute location. -/
def absolute_key_override : FileRead :=
  FileRead.parsed (some (PyVal.dict [("https", PyVal.dict [("key", PyVal.str "/custom/server.key")])]))

/-- The spec §8 example override `{"port": 9999, "HTTPS": {"Enabled": False}}`. -/
def spec_example_override : FileRead :=
  FileRead.parsed (some (PyVal.dict [("port", PyVal.int 9999),
    ("HTTPS", PyVal.dict [("Enabled", PyVal.bool false)])]))

/-- The spec §8 example override with the key path already lowercase. -/
def spec_example_override_lower : FileRead :=
  FileRead.parsed (some (PyVal.dict [("port", PyVal.int 9999),
    ("https", PyVal.dict [("enabled", PyVal.bool false)])]))

/-- A process-table entry matching `get_wazuh_apid_pids`'s heuristic:
another pid, interpreter name `python3`, script name on the command
line. -/
def demo_api_proc : ProcInfo :=
  ⟨500, "python3", ["python3", "/var/ossec/api/scripts/wazuh-apid.py", "start"]⟩

/-! ## Helper lemmas -/

/-- Inversion of a successful `read_api_config` run into its resolution,
bootstrap decision and writes. -/
theorem read_api_config_ok {file : FileRead} {fs : String → Bool} {r : ReadResult}
    (h : read_api_config file fs = Except.ok r) :
    resolve_config file = Except.ok r.config ∧
    ∃ gen, ssc_condition r.config fs = Except.ok gen ∧
      r.writes = if gen then generate_self_signed_certificate_writes else [] := by
  unfold read_api_config at h
  cases hc : resolve_config file with
  | error e => rw [hc] at h; cases h
  | ok conf =>
    rw [hc] at h
    dsimp only at h
    cases hg : ssc_condition conf fs with
    | error e => rw [hg] at h; cases h
    | ok gen =>
      rw [hg] at h
      injection h with h
      subst h
      exact ⟨rfl, gen, hg, rfl⟩

/-- Inversion of a successful `resolve_config` run into merge and path
rewrite. -/
theorem resolve_config_ok {file : FileRead} {conf : List (String × PyVal)}
    (h : resolve_config file = Except.ok conf) :
    ∃ m, merged_config file = Except.ok m ∧
      append_ossec_path m path_fields = Except.ok conf := by
  unfold resolve_config at h
  cases hm : merged_config file with
  | error e => rw [hm] at h; cases h
  | ok m => rw [hm] at h; exact ⟨m, rfl, h⟩

/-- `Except.map` sends errors to themselves. -/
theorem except_map_error {α β ε : Type} {f : α → β} {x : Except ε α} {e : ε}
    (h : Except.map f x = Except.error e) : x = Except.error e := by
  cases x with
  | error e2 => simpa [Except.map] using h
  | ok a => simp [Except.map] at h

/-- `Except.map` inversion on a success. -/
theorem except_map_ok {α β ε : Type} {f : α → β} {x : Except ε α} {b : β}
    (h : Except.map f x = Except.ok b) : ∃ a, x = Except.ok a ∧ b = f a := by
  cases x with
  | error e2 => simp [Except.map] at h
  | ok a => exact ⟨a, rfl, by simp [Except.map] at h; exact h.symm⟩

/-- The merge loop raises only `TypeError` or `KeyError`, never an
`APIException`. -/
theorem merge_nested_error_shape {D O : List (String × PyVal)} {e : PyErr}
    (h : merge_nested D O = Except.error e) :
    e = PyErr.typeError ∨ ∃ k, e = PyErr.keyError k := by
  induction O with
  | nil => cases h
  | cons kv rest ih =>
    obtain ⟨k, v⟩ := kv
    cases v with
    | dict sub =>
      unfold merge_nested at h
      cases hl : lookupKey D k with
      | none => rw [hl] at h; dsimp only at h; injection h with h; exact Or.inr ⟨k, h.symm⟩
      | some w =>
        rw [hl] at h
        cases w with
        | dict dsub => dsimp only at h; exact ih (except_map_error h)
        | str s => dsimp only at h; injection h with h; exact Or.inl h.symm
        | bool b => dsimp only at h; injection h with h; exact Or.inl h.symm
        | int n => dsimp only at h; injection h with h; exact Or.inl h.symm
        | float q => dsimp only at h; injection h with h; exact Or.inl h.symm
    | str s => unfold merge_nested at h; exact ih (except_map_error h)
    | bool b => unfold merge_nested at h; exact ih (except_map_error h)
    | int n => unfold merge_nested at h; exact ih (except_map_error h)
    | float q => unfold merge_nested at h; exact ih (except_map_error h)

/-- The merge loop preserves the override's key sequence. -/
theorem merge_nested_keys {D O O2 : List (String × PyVal)}
    (h : merge_nested D O = Except.ok O2) : keys O2 = keys O := by
  induction O generalizing O2 with
  | nil => injection h with h; subst h; rfl
  | cons kv rest ih =>
    obtain ⟨k, v⟩ := kv
    cases v with
    | dict sub =>
      unfold merge_nested at h
      cases hl : lookupKey D k with
      | none => rw [hl] at h; cases h
      | some w =>
        rw [hl] at h
        cases w with
        | dict dsub =>
          dsimp only at h
          obtain ⟨r2, hr2, hO2⟩ := except_map_ok h
          subst hO2
          simpa [keys] using ih hr2
        | str s => cases h
        | bool b => cases h
        | int n => cases h
        | float q => cases h
    | str s =>
      unfold merge_nested at h
      obtain ⟨r2, hr2, hO2⟩ := except_map_ok h
      subst hO2
      simpa [keys] using ih hr2
    | bool b =>
      unfold merge_nested at h
      obtain ⟨r2, hr2, hO2⟩ := except_map_ok h
      subst hO2
      simpa [keys] using ih hr2
    | int n =>
      unfold merge_nested at h
      obtain ⟨r2, hr2, hO2⟩ := except_map_ok h
      subst hO2
      simpa [keys] using ih hr2
    | float q =>
      unfold merge_nested at h
      obtain ⟨r2, hr2, hO2⟩ := except_map_ok h
      subst hO2
      simpa [keys] using ih hr2

/-- The merge loop succeeds when every dict-valued override key is
dict-valued in the defaults. -/
theorem merge_nested_total {D O : List (String × PyVal)}
    (hnest : ∀ k sub, (k, PyVal.dict sub) ∈ O →
      ∃ dsub, lookupKey D k = some (PyVal.dict dsub)) :
    ∃ O2, merge_nested D O = Except.ok O2 := by
  induction O with
  | nil => exact ⟨[], rfl⟩
  | cons kv rest ih =>
    obtain ⟨k, v⟩ := kv
    obtain ⟨O2, hO2⟩ := ih (fun k2 s2 hmem => hnest k2 s2 (List.mem_cons_of_mem _ hmem))
    cases v with
    | dict sub =>
      obtain ⟨dsub, hd⟩ := hnest k sub (List.mem_cons_self _ _)
      exact ⟨(k, PyVal.dict (pyDictUnion dsub sub)) :: O2,
        by unfold merge_nested; rw [hd, hO2]; rfl⟩
    | str s => exact ⟨(k, PyVal.str s) :: O2, by unfold merge_nested; rw [hO2]; rfl⟩
    | bool b => exact ⟨(k, PyVal.bool b) :: O2, by unfold merge_nested; rw [hO2]; rfl⟩
    | int n => exact ⟨(k, PyVal.int n) :: O2, by unfold merge_nested; rw [hO2]; rfl⟩
    | float q => exact ⟨(k, PyVal.float q) :: O2, by unfold merge_nested; rw [hO2]; rfl⟩

/-- `{**a, **b}` has exactly `a`'s keys when `b`'s keys all occur in
`a`. -/
theorem pyDictUnion_keys_of_subset {a b : List (String × PyVal)}
    (h : ∀ k ∈ keys b, k ∈ keys a) : keys (pyDictUnion a b) = keys a := by
  unfold pyDictUnion
  have h2 : (b.filter fun kv => !(containsKey a kv.1)) = [] := by
    rw [List.filter_eq_nil_iff]
    intro kv hkv
    simp only [containsKey, Bool.not_eq_true', decide_eq_false_iff_not, not_not]
    exact h kv.1 (List.mem_map_of_mem _ hkv)
  rw [h2]
  simp [keys, List.map_map, Function.comp]

/-- Looking up the key just set. -/
theorem lookup_setKey_self (d : List (String × PyVal)) (k : String) (v : PyVal) :
    lookupKey (setKey d k v) k = some v := by
  induction d with
  | nil => simp [setKey, lookupKey]
  | cons kv rest ih =>
    obtain ⟨k2, v2⟩ := kv
    by_cases h : k2 = k
    · subst h; simp [setKey, lookupKey]
    · simp [setKey, lookupKey, h, ih]

/-- Looking up another key after a set. -/
theorem lookup_setKey_ne (d : List (String × PyVal)) (k : String) (v : PyVal)
    (k2 : String) (h : k ≠ k2) :
    lookupKey (setKey d k v) k2 = lookupKey d k2 := by
  induction d with
  | nil => simp [setKey, lookupKey, h]
  | cons kv rest ih =>
    obtain ⟨a, b⟩ := kv
    by_cases ha : a = k
    · subst ha
      simp only [setKey, if_pos rfl]
      by_cases ha2 : a = k2
      · exact absurd ha2 h
      · simp [lookupKey, ha2]
    · simp only [setKey, if_neg ha]
      by_cases ha2 : a = k2
      · subst ha2; simp [lookupKey]
      · simp [lookupKey, ha2, ih]

/-- Inversion of one `append_ossec_path` step. -/
theorem append_one_ok {d d2 : List (String × PyVal)} {sec sub : String}
    (h : append_one d sec sub = Except.ok d2) :
    ∃ s v, lookupKey d sec = some (PyVal.dict s) ∧
      lookupKey s sub = some (PyVal.str v) ∧
      d2 = setKey d sec (PyVal.dict (setKey s sub
        (PyVal.str (os_path_join ossec_path v)))) := by
  unfold append_one at h
  cases h1 : lookupKey d sec with
  | none => rw [h1] at h; cases h
  | some w =>
    rw [h1] at h
    cases w with
    | dict s =>
      dsimp only at h
      cases h2 : lookupKey s sub with
      | none => rw [h2] at h; cases h
      | some u =>
        rw [h2] at h
        cases u with
        | str v =>
          dsimp only at h
          injection h with h
          exact ⟨s, v, rfl, h2, h.symm⟩
        | bool b => cases h
        | int n => cases h
        | float q => cases h
        | dict dd => cases h
    | str s2 => cases h
    | bool b => cases h
    | int n => cases h
    | float q => cases h

/-- String concatenation acts as list concatenation on the character
data. -/
theorem str_data_append (a b : String) : (a ++ b).data = a.data ++ b.data := rfl

/-- A string satisfying `startswith('/')` begins with `'/'`. -/
theorem startswith_slash_data {v : String} (h : startswith_slash v = true) :
    ∃ t, v.data = '/' :: t := by
  have h2 : v.data.head? = some '/' := of_decide_eq_true h
  cases hv : v.data with
  | nil => rw [hv] at h2; cases h2
  | cons c t =>
    rw [hv] at h2
    simp only [List.head?] at h2
    injection h2 with h2
    exact ⟨t, by rw [h2]⟩

/-- Joining a relative path onto the base concatenates with one
separator. -/
theorem os_path_join_base {v : String} (h : startswith_slash v = false) :
    os_path_join ossec_path v = ossec_path ++ "/" ++ v := by
  unfold os_path_join
  rw [h]
  rfl

/-- Every join against the installation base is absolute. -/
theorem os_path_join_is_absolute (v : String) :
    isAbsolutePath (os_path_join ossec_path v) := by
  cases h : startswith_slash v with
  | true =>
    obtain ⟨t, ht⟩ := startswith_slash_data h
    unfold os_path_join
    rw [h]
    simp only [if_true]
    exact ⟨t, ht.symm⟩
  | false =>
    rw [os_path_join_base h]
    have hbase : (ossec_path ++ "/").data = '/' :: "var/ossec/".data := by decide
    refine ⟨"var/ossec/".data ++ v.data, ?_⟩
    rw [str_data_append, hbase]
    rfl

/-- Joining a relative path onto the base roots it there. -/
theorem os_path_join_rooted {v : String} (h : startswith_slash v = false) :
    rootedAtOssec (os_path_join ossec_path v) := by
  rw [os_path_join_base h]
  exact ⟨v.data, (str_data_append _ _).symm⟩

/-! ## Claim theorems -/

/-- Claim C1, counterexample: with an override placing `https.key` at the
missing relative path `custom/server.key`, resolution succeeds and the
TLS bootstrap fires, but it writes the fixed paths
`CONFIG_PATH/ssl/server.key` and `CONFIG_PATH/ssl/server.crt` — neither
of which is the configured key path
`/var/ossec/custom/server.key` — refuting "persists them to the paths
configured in `https.key` and `https.cert`". -/
theorem claim_C1_counterexample :
    (read_api_config custom_key_override (fun _ => false)).map ReadResult.writes
      = Except.ok [server_key_path, server_crt_path] ∧
    (read_api_config custom_key_override (fun _ => false)).map
        (fun r => get_section_value r.config "https" "key")
      = Except.ok (Except.ok (PyVal.str "/var/ossec/custom/server.key")) ∧
    server_key_path ≠ "/var/ossec/custom/server.key" ∧
    server_crt_path ≠ "/var/ossec/custom/server.key" := by
  exact ⟨by decide, by decide, by decide, by decide⟩

/-- Claim C1 (amended): on every successful resolution, the TLS
bootstrap runs exactly when `https.enabled` is truthy and the configured
key file or the configured certificate file is missing (an asymmetric
existence check triggers full regeneration of both, and when both
configured files exist nothing is written); but what it persists goes to
the fixed paths `CONFIG_PATH/ssl/server.key` and
`CONFIG_PATH/ssl/server.crt` — which coincide with the configured
`https.key`/`https.cert` paths only when those retain their default
values. -/
theorem claim_C1 (file : FileRead) (fs : String → Bool) (r : ReadResult)
    (h : read_api_config file fs = Except.ok r)
    (en : PyVal) (kp cp : String)
    (hen : get_section_value r.config "https" "enabled" = Except.ok en)
    (hkp : get_section_value r.config "https" "key" = Except.ok (PyVal.str kp))
    (hcp : get_section_value r.config "https" "cert" = Except.ok (PyVal.str cp)) :
    r.writes = if pyTruthy en && (!(fs kp) || !(fs cp))
      then [server_key_path, server_crt_path] else [] := by
  obtain ⟨-, gen, hg, hw⟩ := read_api_config_ok h
  unfold get_section_value at hen hkp hcp
  cases hh : lookupKey r.config "https" with
  | none => rw [hh] at hen; cases hen
  | some w =>
    rw [hh] at hen hkp hcp
    cases w with
    | str s => cases hen
    | bool b => cases hen
    | int n => cases hen
    | float q => cases hen
    | dict hd =>
      dsimp only at hen hkp hcp
      cases he : lookupKey hd "enabled" with
      | none => rw [he] at hen; cases hen
      | some env =>
        rw [he] at hen
        dsimp only at hen
        injection hen with hen
        subst hen
        cases hk : lookupKey hd "key" with
        | none => rw [hk] at hkp; cases hkp
        | some kv =>
          rw [hk] at hkp
          dsimp only at hkp
          injection hkp with hkp
          subst hkp
          cases hc : lookupKey hd "cert" with
          | none => rw [hc] at hcp; cases hcp
          | some cv =>
            rw [hc] at hcp
            dsimp only at hcp
            injection hcp with hcp
            subst hcp
            unfold ssc_condition at hg
            rw [hh] at hg
            dsimp only at hg
            rw [he] at hg
            dsimp only at hg
            cases ht : pyTruthy env with
            | false =>
              rw [ht] at hg
              simp only [Bool.false_eq_true, if_false] at hg
              injection hg with hg
              subst hg
              simp [hw, ht]
            | true =>
              rw [ht] at hg
              simp only [if_true] at hg
              rw [hk] at hg
              dsimp only at hg
              cases hf : fs kp with
              | false =>
                rw [hf] at hg
                simp only [Bool.not_false, if_true] at hg
                injection hg with hg
                subst hg
                simp [hw, ht, hf, generate_self_signed_certificate_writes]
              | true =>
                rw [hf] at hg
                simp only [Bool.not_true, Bool.false_eq_true, if_false] at hg
                rw [hc] at hg
                dsimp only at hg
                injection hg with hg
                subst hg
                simp [hw, ht, hf, generate_self_signed_certificate_writes]

/-- Witness for C1: defaults with both credential files missing generate
both fixed paths. -/
theorem claim_C1_witness :
    (read_api_config FileRead.absent (fun _ => false)).map ReadResult.writes
      = Except.ok [server_key_path, server_crt_path] := by
  have h : read_api_config FileRead.absent (fun _ => false)
      = Except.ok ⟨resolved_default_doc, generate_self_signed_certificate_writes⟩ := by decide
  have h2 := claim_C1 FileRead.absent (fun _ => false)
      ⟨resolved_default_doc, generate_self_signed_certificate_writes⟩ h
      (PyVal.bool true) "/var/ossec/api/configuration/ssl/server.key"
      "/var/ossec/api/configuration/ssl/server.crt" (by decide) (by decide) (by decide)
  rw [h]
  simpa [Except.map, pyTruthy] using h2

/-- Claim C2, counterexample: running `test_config` on a system with no
configuration file and no existing credential files exits 0, yet writes
the key and certificate files — `read_api_config` runs the TLS bootstrap
inside `test_config`, refuting "performs no side effects: no certificate
or key file is generated". -/
theorem claim_C2_counterexample :
    (test_config FileRead.absent (fun _ => false)).2 = 0 ∧
    Effect.write_file server_key_path ∈ (test_config FileRead.absent (fun _ => false)).1 ∧
    Effect.write_file server_crt_path ∈ (test_config FileRead.absent (fun _ => false)).1 := by
  exact ⟨by decide, by decide, by decide⟩

/-- Claim C2 (amended): `test_config` exits 0 when configuration
resolution succeeds and 1 (printing the error) when it fails, and it
never daemonizes, drops privileges, or touches a log file — but it is
not free of side effects: on success its trace is exactly the credential
writes the resolution's TLS bootstrap performed (non-empty whenever
HTTPS is enabled and a configured credential file is missing). -/
theorem claim_C2 (file : FileRead) (fs : String → Bool) :
    (∀ r, read_api_config file fs = Except.ok r →
      test_config file fs = (r.writes.map Effect.write_file, 0)) ∧
    (∀ e, read_api_config file fs = Except.error e →
      test_config file fs = ([Effect.print ("Configuration not valid: " ++ py_err_str e)], 1)) ∧
    (∀ eff ∈ (test_config file fs).1,
      eff ≠ Effect.daemonize ∧ eff ≠ Effect.setgid ∧ eff ≠ Effect.setuid ∧
      (∀ p, eff ≠ Effect.open_log p) ∧ (∀ p, eff ≠ Effect.chown p) ∧
      (∀ p, eff ≠ Effect.chmod p) ∧
      (∀ lvl fg, eff ≠ Effect.setup_logging lvl fg)) := by
  refine ⟨?_, ?_, ?_⟩
  · intro r h; simp [test_config, h]
  · intro e h; simp [test_config, h]
  · intro eff heff
    unfold test_config at heff
    cases hr : read_api_config file fs with
    | ok r =>
      rw [hr] at heff
      simp only [List.mem_map] at heff
      obtain ⟨p, _, rfl⟩ := heff
      simp
    | error e =>
      rw [hr] at heff
      simp only [List.mem_singleton] at heff
      subst heff
      simp

/-- Witness for C2: an unreadable override file maps to exit 1 with the
printed error. -/
theorem claim_C2_witness :
    test_config (FileRead.ioFailed "Permission denied") (fun _ => false)
      = ([Effect.print ("Configuration not valid: "
          ++ py_err_str (PyErr.api 2004 "Permission denied"))], 1) :=
  (claim_C2 (FileRead.ioFailed "Permission denied") (fun _ => false)).2.1
    (PyErr.api 2004 "Permission denied") (by decide)

/-- Claim C3, counterexample: with default document `{"port": 55000}`
and override `{"port": {"x": 1}}` every top-level override key is a
default key (no offending keys), yet `fill_dict` raises `TypeError`
(`{**55000, ...}`) instead of succeeding — refuting "when every
top-level key of O is in keys(D), resolve succeeds". -/
theorem claim_C3_counterexample :
    offending_keys [("port", PyVal.int 55000)] [("port", PyVal.dict [("x", PyVal.int 1)])] = [] ∧
    fill_dict [("port", PyVal.int 55000)] [("port", PyVal.dict [("x", PyVal.int 1)])]
      = Except.error PyErr.typeError := by
  exact ⟨by decide, by decide⟩

/-- Claim C3 (amended): `fill_dict` fails with the UnknownKey error
(`APIException(2000, ...)`) exactly when the override has a top-level
key absent from the defaults, and that error's detail is the
comma-joined offending keys (exactly the keys of O not in D, in O's
order; Python renders the same set in unspecified order); when every
top-level key of O is in keys(D) **and** every key of O holding a nested
mapping holds a nested mapping in D, resolution succeeds with top-level
key sequence equal to keys(D).  (Without the extra nested-mapping
condition the merge raises `TypeError`, per the counterexample.) -/
theorem claim_C3 (D O : List (String × PyVal)) :
    ((∃ k ∈ keys O, k ∉ keys D) ↔ ∃ d, fill_dict D O = Except.error (PyErr.api 2000 d)) ∧
    (∀ d, fill_dict D O = Except.error (PyErr.api 2000 d) →
      d = ", ".intercalate (offending_keys D O)) ∧
    (∀ k, k ∈ offending_keys D O ↔ (k ∈ keys O ∧ k ∉ keys D)) ∧
    ((∀ k ∈ keys O, k ∈ keys D) →
      (∀ k sub, (k, PyVal.dict sub) ∈ O →
        ∃ dsub, lookupKey D k = some (PyVal.dict dsub)) →
      ∃ res, fill_dict D O = Except.ok res ∧ keys res = keys D) := by
  have hmem : ∀ k, k ∈ offending_keys D O ↔ (k ∈ keys O ∧ k ∉ keys D) := by
    intro k
    simp [offending_keys, List.mem_filter, containsKey]
  have no_api_of_nil : ∀ d, offending_keys D O = [] →
      fill_dict D O ≠ Except.error (PyErr.api 2000 d) := by
    intro d hoff hd
    unfold fill_dict at hd
    rw [if_pos hoff] at hd
    rcases merge_nested_error_shape (except_map_error hd) with h1 | ⟨k2, h1⟩ <;> cases h1
  refine ⟨⟨?_, ?_⟩, ?_, hmem, ?_⟩
  · rintro ⟨k, hk, hnk⟩
    have hne : offending_keys D O ≠ [] := List.ne_nil_of_mem ((hmem k).mpr ⟨hk, hnk⟩)
    exact ⟨_, by unfold fill_dict; rw [if_neg hne]⟩
  · rintro ⟨d, hd⟩
    by_cases hoff : offending_keys D O = []
    · exact absurd hd (no_api_of_nil d hoff)
    · obtain ⟨k, hk⟩ := List.exists_mem_of_ne_nil _ hoff
      exact ⟨k, ((hmem k).mp hk).1, ((hmem k).mp hk).2⟩
  · intro d hd
    by_cases hoff : offending_keys D O = []
    · exact absurd hd (no_api_of_nil d hoff)
    · unfold fill_dict at hd
      rw [if_neg hoff] at hd
      injection hd with hd
      injection hd with h1 h2
      exact h2.symm
  · intro hsub hnest
    have hoff : offending_keys D O = [] := by
      unfold offending_keys
      rw [List.filter_eq_nil_iff]
      intro k hk
      simp only [containsKey, Bool.not_eq_true', decide_eq_false_iff_not, not_not]
      exact hsub k hk
    obtain ⟨O2, hO2⟩ := merge_nested_total hnest
    refine ⟨pyDictUnion D O2, ?_, ?_⟩
    · unfold fill_dict
      rw [if_pos hoff, hO2]
      rfl
    · exact pyDictUnion_keys_of_subset (fun k hk => hsub k ((merge_nested_keys hO2) ▸ hk))

/-- Witness for C3: a compatible nested override merges with the
defaults' key sequence. -/
theorem claim_C3_witness :
    ∃ res, fill_dict [("a", PyVal.int 1), ("b", PyVal.dict [("x", PyVal.int 2)])]
        [("b", PyVal.dict [("y", PyVal.int 3)])] = Except.ok res ∧
      keys res = keys [("a", PyVal.int 1), ("b", PyVal.dict [("x", PyVal.int 2)])] := by
  refine (claim_C3 _ _).2.2.2 (by decide) ?_
  rintro k sub hmem
  simp only [List.mem_singleton] at hmem
  injection hmem with h1 h2
  subst h1
  injection h2 with h2
  subst h2
  exact ⟨[("x", PyVal.int 2)], by decide⟩

/-- Claim C4, counterexample: an override giving `https.key` the
absolute value `/custom/server.key` resolves successfully to that very
string (`os.path.join` discards the base for an absolute second
argument), which is not rooted at the installation base — refuting
"absolute paths rooted at the installation base directory, regardless of
whether each value came from ... the override document". -/
theorem claim_C4_counterexample :
    (read_api_config absolute_key_override (fun _ => true)).map
        (fun r => get_section_value r.config "https" "key")
      = Except.ok (Except.ok (PyVal.str "/custom/server.key")) ∧
    ¬ rootedAtOssec "/custom/server.key" := by
  exact ⟨by decide, by unfold rootedAtOssec; decide⟩

/-- Claim C4 (amended): on every successful resolution, each of the four
path fields `logs.path`, `https.key`, `https.cert`, `https.ca` equals
`os.path.join(ossec_path, v)` for the corresponding merged value `v`;
the result is always an absolute path, and it is rooted at the
installation base whenever `v` is relative — an absolute override value
is preserved verbatim (absolute, but possibly outside the base). -/
theorem claim_C4 (file : FileRead) (fs : String → Bool) (r : ReadResult)
    (h : read_api_config file fs = Except.ok r) :
    ∀ sec sub, (sec, sub) ∈ path_fields →
      ∃ m v, merged_config file = Except.ok m ∧
        get_section_value m sec sub = Except.ok (PyVal.str v) ∧
        get_section_value r.config sec sub
          = Except.ok (PyVal.str (os_path_join ossec_path v)) ∧
        isAbsolutePath (os_path_join ossec_path v) ∧
        (startswith_slash v = false → rootedAtOssec (os_path_join ossec_path v)) := by
  obtain ⟨hres, -⟩ := read_api_config_ok h
  obtain ⟨m, hm, happ⟩ := resolve_config_ok hres
  unfold path_fields at happ
  simp only [append_ossec_path] at happ
  cases a1 : append_one m "logs" "path" with
  | error e => rw [a1] at happ; cases happ
  | ok d1 =>
  rw [a1] at happ
  dsimp only at happ
  cases a2 : append_one d1 "https" "key" with
  | error e => rw [a2] at happ; cases happ
  | ok d2 =>
  rw [a2] at happ
  dsimp only at happ
  cases a3 : append_one d2 "https" "cert" with
  | error e => rw [a3] at happ; cases happ
  | ok d3 =>
  rw [a3] at happ
  dsimp only at happ
  cases a4 : append_one d3 "https" "ca" with
  | error e => rw [a4] at happ; cases happ
  | ok d4 =>
  rw [a4] at happ
  dsimp only at happ
  injection happ with happ
  obtain ⟨L, v1, hL, hv1, hd1⟩ := append_one_ok a1
  obtain ⟨H1, v2, hH1, hv2, hd2⟩ := append_one_ok a2
  obtain ⟨H2, v3, hH2, hv3, hd3⟩ := append_one_ok a3
  obtain ⟨H3, v4, hH4, hv4, hd4⟩ := append_one_ok a4
  have hmH : lookupKey m "https" = some (PyVal.dict H1) := by
    rw [hd1, lookup_setKey_ne m "logs" _ "https" (by decide)] at hH1
    exact hH1
  have hH2eq : H2 = setKey H1 "key" (PyVal.str (os_path_join ossec_path v2)) := by
    rw [hd2, lookup_setKey_self] at hH2
    injection hH2 with hH2
    injection hH2 with hH2
    exact hH2.symm
  have hH3eq : H3 = setKey H2 "cert" (PyVal.str (os_path_join ossec_path v3)) := by
    rw [hd3, lookup_setKey_self] at hH4
    injection hH4 with hH4
    injection hH4 with hH4
    exact hH4.symm
  have hv3m : lookupKey H1 "cert" = some (PyVal.str v3) := by
    rw [hH2eq, lookup_setKey_ne H1 "key" _ "cert" (by decide)] at hv3
    exact hv3
  have hv4m : lookupKey H1 "ca" = some (PyVal.str v4) := by
    rw [hH3eq, lookup_setKey_ne H2 "cert" _ "ca" (by decide), hH2eq,
      lookup_setKey_ne H1 "key" _ "ca" (by decide)] at hv4
    exact hv4
  have hconf : r.config = setKey d3 "https"
      (PyVal.dict (setKey H3 "ca" (PyVal.str (os_path_join ossec_path v4)))) := by
    rw [← happ, hd4]
  have hfinH : lookupKey r.config "https"
      = some (PyVal.dict (setKey H3 "ca" (PyVal.str (os_path_join ossec_path v4)))) := by
    rw [hconf, lookup_setKey_self]
  have hfin_key : lookupKey (setKey H3 "ca" (PyVal.str (os_path_join ossec_path v4))) "key"
      = some (PyVal.str (os_path_join ossec_path v2)) := by
    rw [lookup_setKey_ne H3 "ca" _ "key" (by decide), hH3eq,
      lookup_setKey_ne H2 "cert" _ "key" (by decide), hH2eq, lookup_setKey_self]
  have hfin_cert : lookupKey (setKey H3 "ca" (PyVal.str (os_path_join ossec_path v4))) "cert"
      = some (PyVal.str (os_path_join ossec_path v3)) := by
    rw [lookup_setKey_ne H3 "ca" _ "cert" (by decide), hH3eq, lookup_setKey_self]
  have hfin_ca : lookupKey (setKey H3 "ca" (PyVal.str (os_path_join ossec_path v4))) "ca"
      = some (PyVal.str (os_path_join ossec_path v4)) := lookup_setKey_self _ _ _
  have hfinL : lookupKey r.config "logs"
      = some (PyVal.dict (setKey L "path" (PyVal.str (os_path_join ossec_path v1)))) := by
    rw [hconf, lookup_setKey_ne d3 "https" _ "logs" (by decide), hd3,
      lookup_setKey_ne d2 "https" _ "logs" (by decide), hd2,
      lookup_setKey_ne d1 "https" _ "logs" (by decide), hd1, lookup_setKey_self]
  intro sec sub hmem
  simp only [path_fields, List.mem_cons, List.not_mem_nil, or_false] at hmem
  rcases hmem with h1 | h1 | h1 | h1 <;>
    (injection h1 with hsec hsub; subst hsec; subst hsub)
  · refine ⟨m, v1, hm, ?_, ?_, os_path_join_is_absolute v1,
      fun hrel => os_path_join_rooted hrel⟩
    · unfold get_section_value
      rw [hL]
      dsimp only
      rw [hv1]
    · unfold get_section_value
      rw [hfinL]
      dsimp only
      rw [lookup_setKey_self]
  · refine ⟨m, v2, hm, ?_, ?_, os_path_join_is_absolute v2,
      fun hrel => os_path_join_rooted hrel⟩
    · unfold get_section_value
      rw [hmH]
      dsimp only
      rw [hv2]
    · unfold get_section_value
      rw [hfinH]
      dsimp only
      rw [hfin_key]
  · refine ⟨m, v3, hm, ?_, ?_, os_path_join_is_absolute v3,
      fun hrel => os_path_join_rooted hrel⟩
    · unfold get_section_value
      rw [hmH]
      dsimp only
      rw [hv3m]
    · unfold get_section_value
      rw [hfinH]
      dsimp only
      rw [hfin_cert]
  · refine ⟨m, v4, hm, ?_, ?_, os_path_join_is_absolute v4,
      fun hrel => os_path_join_rooted hrel⟩
    · unfold get_section_value
      rw [hmH]
      dsimp only
      rw [hv4m]
    · unfold get_section_value
      rw [hfinH]
      dsimp only
      rw [hfin_ca]

/-- Witness for C4: the default resolution's `https.key` (with every
file existing so no bootstrap write occurs). -/
theorem claim_C4_witness :
    ∃ m v, merged_config FileRead.absent = Except.ok m ∧
      get_section_value m "https" "key" = Except.ok (PyVal.str v) ∧
      get_section_value (ReadResult.mk resolved_default_doc []).config "https" "key"
        = Except.ok (PyVal.str (os_path_join ossec_path v)) ∧
      isAbsolutePath (os_path_join ossec_path v) ∧
      (startswith_slash v = false → rootedAtOssec (os_path_join ossec_path v)) :=
  claim_C4 FileRead.absent (fun _ => true) ⟨resolved_default_doc, []⟩ (by decide)
    "https" "key" (by decide)

/-- Claim C5, counterexample: resolving the override
`{"port": 9999, "HTTPS": {"Enabled": False}}` does not succeed: only
string values are lowercased, never keys, so `HTTPS` fails `fill_dict`'s
key validation with `APIException(2000, 'HTTPS')` — refuting "resolving
... succeeds". -/
theorem claim_C5_counterexample :
    read_api_config spec_example_override (fun _ => true)
      = Except.error (PyErr.api 2000 "HTTPS") := by decide

/-- Claim C5 (amended): resolving `{"port": 9999, "HTTPS": {"Enabled":
False}}` fails with the UnknownKey error naming `HTTPS` (keys are not
case-normalized; only string values are lowercased), while the
lowercase-keyed override `{"port": 9999, "https": {"enabled": false}}`
succeeds and yields `port == 9999`, `https.enabled == false`, and every
other field equal to the default document's value after path rewriting
(the result is exactly the resolved default document with those two
updates). -/
theorem claim_C5 :
    read_api_config spec_example_override (fun _ => true)
      = Except.error (PyErr.api 2000 "HTTPS") ∧
    lookupKey resolved_default_doc "https" = some (PyVal.dict resolved_https_default) ∧
    ∃ r, read_api_config spec_example_override_lower (fun _ => true) = Except.ok r ∧
      lookupKey r.config "port" = some (PyVal.int 9999) ∧
      get_section_value r.config "https" "enabled" = Except.ok (PyVal.bool false) ∧
      r.writes = [] ∧
      r.config = setKey (setKey resolved_default_doc "port" (PyVal.int 9999)) "https"
        (PyVal.dict (setKey resolved_https_default "enabled" (PyVal.bool false))) := by
  refine ⟨by decide, by decide,
    ⟨⟨setKey (setKey resolved_default_doc "port" (PyVal.int 9999)) "https"
        (PyVal.dict (setKey resolved_https_default "enabled" (PyVal.bool false))), []⟩,
      by decide, by decide, by decide, by decide, by decide⟩⟩

/-- Claim C6, counterexample: an override file that exists but fails to
parse raises the parser's own error uncaught, not
`ConfigError(IOFailure)` (`APIException(2004)`): only `IOError` is
caught at configuration.py:151 — refuting "parse failures and I/O
failures are both mapped to this same error". -/
theorem claim_C6_counterexample :
    read_api_config (FileRead.parseFailure "while parsing a block mapping") (fun _ => true)
      = Except.error (PyErr.yaml "while parsing a block mapping") ∧
    is_io_failure (read_api_config (FileRead.parseFailure "while parsing a block mapping")
        (fun _ => true)) = false := by
  exact ⟨by decide, by decide⟩

/-- Claim C6 (amended): an override file that exists but cannot be read
(an OS-level `IOError`) makes resolution fail with `APIException(2004)`
carrying the underlying OS error string; a file that reads but cannot be
parsed raises the parser's error uncaught, and a file parsing to a
non-mapping raises `AttributeError` in value-lowercasing — neither
parse-level failure is mapped to the I/O error. -/
theorem claim_C6 (fs : String → Bool) :
    (∀ s, read_api_config (FileRead.ioFailed s) fs = Except.error (PyErr.api 2004 s)) ∧
    (∀ m, read_api_config (FileRead.parseFailure m) fs = Except.error (PyErr.yaml m)) ∧
    (∀ m, is_io_failure (read_api_config (FileRead.parseFailure m) fs) = false) ∧
    (∀ s, read_api_config (FileRead.parsed (some (PyVal.str s))) fs = Except.error PyErr.attrError) ∧
    (∀ n, read_api_config (FileRead.parsed (some (PyVal.int n))) fs = Except.error PyErr.attrError) := by
  exact ⟨fun s => rfl, fun m => rfl, fun m => rfl, fun s => rfl, fun n => rfl⟩

/-- Witness for C6 at a concrete unreadable file. -/
theorem claim_C6_witness :
    read_api_config (FileRead.ioFailed "No such file or directory") (fun _ => true)
      = Except.error (PyErr.api 2004 "No such file or directory") :=
  (claim_C6 (fun _ => true)).1 "No such file or directory"

/-- Claim C7: when the queried process set is non-empty, `start` prints
the conflicting pids and exits with status 2, its entire effect trace
being that single print — no daemonization, privilege drop, file write,
or configuration resolution happens before the exit. -/
theorem claim_C7 (foreground root : Bool) (file : FileRead) (fs : String → Bool)
    (procs : List ProcInfo) (own_pid : Nat) (ssl : SslResult) (pids : List Nat)
    (h : get_wazuh_apid_pids procs own_pid = some pids) :
    start foreground root file fs procs own_pid ssl
      = ([Effect.print (start_conflict_msg pids)], Outcome.exited 2) := by
  simp only [start, h]

/-- Witness for C7 at a concrete process table containing a second
running `wazuh-apid.py` instance. -/
theorem claim_C7_witness :
    start false false FileRead.absent (fun _ => false) [demo_api_proc] 1 SslResult.ok
      = ([Effect.print (start_conflict_msg [500])], Outcome.exited 2) :=
  claim_C7 false false FileRead.absent (fun _ => false) [demo_api_proc] 1 SslResult.ok
    [500] (by decide)

/-- Claim C8: `stop` on an empty process set is a successful no-op (no
signal, no error — the function is total and its trace is empty); on a
non-empty set every matched pid receives the graceful-termination
signal, the caller waits with the 5-unit grace period, and the forced
kill signal goes to exactly the pids that survive the grace period. -/
theorem claim_C8 (procs : List ProcInfo) (own_pid : Nat) (survives : Nat → Bool) :
    (get_wazuh_apid_pids procs own_pid = none → stop procs own_pid survives = []) ∧
    (∀ pids, get_wazuh_apid_pids procs own_pid = some pids →
      (∀ p ∈ pids, Effect.terminate p ∈ stop procs own_pid survives) ∧
      Effect.wait_procs 5 ∈ stop procs own_pid survives ∧
      (∀ p, Effect.kill p ∈ stop procs own_pid survives ↔ p ∈ pids ∧ survives p = true)) := by
  constructor
  · intro h; simp [stop, h]
  · intro pids h
    refine ⟨?_, ?_, ?_⟩
    · intro p hp
      simp only [stop, h]
      simp [List.mem_append, List.mem_map, hp]
    · simp only [stop, h]
      simp
    · intro p
      simp only [stop, h]
      simp [List.mem_append, List.mem_map, List.mem_filter]

/-- Witness for C8: one matched process that outlives the grace period
receives the kill signal. -/
theorem claim_C8_witness :
    Effect.kill 500 ∈ stop [demo_api_proc] 1 (fun p => p == 500) :=
  (((claim_C8 [demo_api_proc] 1 (fun p => p == 500)).2 [500] (by decide)).2.2 500).mpr
    (by decide)

/-- Claim C9 (code bug): the `__main__` dispatch consults only the
positional `action`; the parsed `-V` and `-t` flags are never read, so
`wazuh-apid.py -V` (action defaulting to `start`) dispatches to `start`
instead of printing the version, and likewise `-t` does not trigger the
configuration test — contradicting the argparse help text that documents
the flags as "Print version" and "Test configuration". -/
theorem claim_C9 :
    (∀ a : Args, main_dispatch a = main_dispatch { a with version := true, test_config := true }) ∧
    main_dispatch ⟨default_action, false, true, false, false, "/var/ossec/api/configuration/api.yaml"⟩
      = DispatchTarget.run_start ∧
    main_dispatch ⟨default_action, false, false, true, false, "/var/ossec/api/configuration/api.yaml"⟩
      = DispatchTarget.run_start := by
  exact ⟨fun a => rfl, by decide, by decide⟩

/-- Claim C10: with an empty process set, `status` prints the stopped
message and then unconditionally attempts to open the log file (on every
value of the existence oracle); when the log file is absent the run ends
in an uncaught `IOError` whose trace is exactly the stopped message
followed by the failed open — no last-lines output and no closing
`Full log in ...` line. -/
theorem claim_C10 (procs : List ProcInfo) (own_pid : Nat) (log_lines : List String)
    (h : get_wazuh_apid_pids procs own_pid = none) :
    (∀ log_exists, Effect.open_log API_LOG_FILE_PATH
        ∈ (status procs own_pid log_exists log_lines).1) ∧
    status procs own_pid false log_lines
      = ([Effect.print "Wazuh API is stopped.", Effect.open_log API_LOG_FILE_PATH],
         StatusOutcome.ioFailed) := by
  constructor
  · intro log_exists
    cases log_exists <;> simp [status, h]
  · simp [status, h]

/-- Witness for C10 on the empty process table. -/
theorem claim_C10_witness :
    status [] 1 false ["line one", "line two"]
      = ([Effect.print "Wazuh API is stopped.", Effect.open_log API_LOG_FILE_PATH],
         StatusOutcome.ioFailed) :=
  (claim_C10 [] 1 ["line one", "line two"] (by decide)).2

end Wazuh
